import Mathlib

/-
Verification of the k8s events receiver (receiver/k8seventsreceiver/receiver.go).

Go values are embedded shallowly:
  * time.Time is modelled as Int (nanoseconds); the zero Time value is 0 and
    t.Before(u) is t < u.
  * a Go channel used purely as a stopper is modelled by its closed flag;
    closing an already-closed channel is a run-time panic in Go, so closeChan
    returns none in that case.
  * corev1.Event is RawEvent, keeping the fields the receiver reads.
  * corev1.NamespaceAll is the empty string.
  * the opaque collaborators (k8sEventToLogData, the logs consumer, the
    ObsReport instrumentation) are parameters; handleEvent produces the trace
    of calls it makes to them.
-/

namespace K8sEvents

/-- Go time.Time modelled as an instant on an integer nanosecond line; the
zero Time value is 0 and a real clock reading is strictly positive. -/
def timeBefore (t u : Int) : Bool := decide (t < u)

/-- The fields of corev1.Event that the receiver reads: three optional
timestamps (zero value = absent) plus the payload fields carried to the
transformer. -/
structure RawEvent where
  eventTime : Int := 0
  lastTimestamp : Int := 0
  firstTimestamp : Int := 0
  reason : String := ""
  message : String := ""
  count : Int := 0
deriving DecidableEq, Repr

/-- A stopper channel, modelled by whether it has been closed. -/
structure Chan where
  closed : Bool
deriving DecidableEq, Repr

/-- Go close(ch): closing an already-closed channel panics (none). -/
def closeChan (c : Chan) : Option Chan :=
  if c.closed then none else some { closed := true }

/-- Modelled from the spec: extraction rules (internal/kube is not in src);
an ordered set of source-field-path to destination-attribute mappings. Their
content is irrelevant to the lifecycle claims. -/
def ExtractionRules := List (String × String)
deriving DecidableEq, Repr

/-- Modelled from the spec: an initialization option (the option type and
createReceiverOpts live outside src/receiver/k8seventsreceiver/receiver.go).
An option either updates the receiver's configuration-derived state (in this
repository: the extraction rules) or fails with an error. -/
inductive Opt where
  | setRules (r : ExtractionRules)
  | failWith (e : String)
deriving DecidableEq

/-- The k8seventsReceiver state: configured namespaces, the (opaque) result
of Config.getK8sClient modelled from the spec as an optional construction
error, the options, extraction rules, the start time captured at
construction, the stopper-channel list, the set of established watches (the
namespace each targets, in order), and the cancellable lifetime context
(cancelSet: kr.cancel has been assigned; cancelled: it has been called). -/
structure Receiver where
  namespaces : List String
  clientErr : Option String
  options : List Opt
  rules : ExtractionRules
  startTime : Int
  stopperChanList : List Chan
  watches : List String
  cancelSet : Bool
  cancelled : Bool
deriving DecidableEq

/-- newReceiver: captures startTime := time.Now() (the parameter now) at
construction; no watches, no stoppers, no cancel function yet. -/
def newReceiver (now : Int) (namespaces : List String)
    (clientErr : Option String) (options : List Opt) : Receiver :=
  { namespaces := namespaces
    clientErr := clientErr
    options := options
    rules := []
    startTime := now
    stopperChanList := []
    watches := []
    cancelSet := false
    cancelled := false }

/-- Applying one option to the receiver: kr.options loop body. -/
def applyOpt (kr : Receiver) (o : Opt) : Option String × Receiver :=
  match o with
  | .setRules r => (none, { kr with rules := r })
  | .failWith e => (some e, kr)

/-- The option loop in Start: apply options in order, returning the first
error (aborting the rest) or the updated receiver. -/
def applyOpts (kr : Receiver) : List Opt → Option String × Receiver
  | [] => (none, kr)
  | o :: rest =>
    match applyOpt kr o with
    | (some e, kr') => (some e, kr')
    | (none, kr') => applyOpts kr' rest

/-- The first error among a list of options, if any. -/
def firstOptErr : List Opt → Option String
  | [] => none
  | .setRules _ :: rest => firstOptErr rest
  | .failWith e :: _ => some e

/-- corev1.NamespaceAll, the all-namespaces sentinel (the empty string). -/
def NamespaceAll : String := ""

/-- startWatch: make a fresh stopper channel, append it to
kr.stopperChanList, and register the watch for namespace ns (the informer
registration is recorded as the namespace entering kr.watches). -/
def startWatch (kr : Receiver) (ns : String) : Receiver :=
  { kr with
    stopperChanList := kr.stopperChanList ++ [{ closed := false }]
    watches := kr.watches ++ [ns] }

/-- Start: assign the cancellable context, apply all options in order
(abort with the error on the first failure), obtain the k8s client (abort
with its error on failure), then start one watch per configured namespace,
or a single all-namespaces watch when none are configured. Returns the Go
error and the resulting receiver state. -/
def Start (kr0 : Receiver) : Option String × Receiver :=
  match applyOpts { kr0 with cancelSet := true } kr0.options with
  | (some e, kr') => (some e, kr')
  | (none, kr') =>
    match kr'.clientErr with
    | some e => (some e, kr')
    | none =>
      if kr'.namespaces = [] then
        (none, startWatch kr' NamespaceAll)
      else
        (none, kr'.namespaces.foldl startWatch kr')

/-- Shutdown: if kr.cancel was never assigned, return nil at once;
otherwise close every stopper channel (Go panics on a double close: none)
and call cancel. On completion the returned Go error is always nil. -/
def Shutdown (kr : Receiver) : Option (Receiver × Option String) :=
  if kr.cancelSet then
    match kr.stopperChanList.mapM closeChan with
    | none => none
    | some cs => some ({ kr with stopperChanList := cs, cancelled := true }, none)
  else
    some (kr, none)

/-- getEventTimestamp: priority EventTime > LastTimestamp > FirstTimestamp,
the first field whose value is not the zero Time value; zero if all are. -/
def getEventTimestamp (ev : RawEvent) : Int :=
  if ev.eventTime ≠ 0 then ev.eventTime
  else if ev.lastTimestamp ≠ 0 then ev.lastTimestamp
  else if ev.firstTimestamp ≠ 0 then ev.firstTimestamp
  else 0

/-- allowEvent: accept events whose resolved timestamp is not older than
the receiver start time. -/
def allowEvent (kr : Receiver) (ev : RawEvent) : Bool :=
  !(timeBefore (getEventTimestamp ev) kr.startTime)

/-- One observable call handleEvent makes to its collaborators: starting an
instrumented logs operation, delivering log data to the consumer, or ending
the operation with the record count and the consumer's error. -/
inductive Action (L : Type) where
  | startLogsOp
  | consumeLogs (ld : L)
  | endLogsOp (numRecords : Nat) (err : Option String)
deriving DecidableEq

/-- handleEvent: if the event passes the flood filter, transform it
(k8sEventToLogData is outside src, passed as the parameter transform),
start the instrumented operation, deliver to the consumer, and end the
operation reporting 1 record and the consumer's error; otherwise do
nothing. The result is the trace of calls made. -/
def handleEvent {L : Type} (kr : Receiver) (transform : RawEvent → L)
    (consume : L → Option String) (ev : RawEvent) : List (Action L) :=
  if allowEvent kr ev then
    let ld := transform ev
    [Action.startLogsOp, Action.consumeLogs ld,
     Action.endLogsOp 1 (consume ld)]
  else
    []

/-- The AddFunc handler registered by startWatch: handleEvent on the object. -/
def addFunc {L : Type} (kr : Receiver) (transform : RawEvent → L)
    (consume : L → Option String) (obj : RawEvent) : List (Action L) :=
  handleEvent kr transform consume obj

/-- The UpdateFunc handler registered by startWatch: ignores the old object
and runs handleEvent on the new one. -/
def updateFunc {L : Type} (kr : Receiver) (transform : RawEvent → L)
    (consume : L → Option String) (_old obj : RawEvent) : List (Action L) :=
  handleEvent kr transform consume obj

/-- One lifecycle operation on the receiver: Start, or a Shutdown that
completes without panicking. -/
inductive Step : Receiver → Receiver → Prop where
  | start (kr : Receiver) : Step kr (Start kr).2
  | shutdown (kr kr' : Receiver) (e : Option String) :
      Shutdown kr = some (kr', e) → Step kr kr'

/-- Receiver states reachable by lifecycle operations. -/
def Reaches : Receiver → Receiver → Prop := Relation.ReflTransGen Step

/-! Helper lemmas. -/

theorem applyOpt_frame (kr : Receiver) (o : Opt) :
    (applyOpt kr o).2.stopperChanList = kr.stopperChanList ∧
    (applyOpt kr o).2.watches = kr.watches ∧
    (applyOpt kr o).2.namespaces = kr.namespaces ∧
    (applyOpt kr o).2.clientErr = kr.clientErr ∧
    (applyOpt kr o).2.startTime = kr.startTime := by
  cases o <;> simp [applyOpt]

theorem applyOpts_frame (l : List Opt) (kr : Receiver) :
    (applyOpts kr l).2.stopperChanList = kr.stopperChanList ∧
    (applyOpts kr l).2.watches = kr.watches ∧
    (applyOpts kr l).2.namespaces = kr.namespaces ∧
    (applyOpts kr l).2.clientErr = kr.clientErr ∧
    (applyOpts kr l).2.startTime = kr.startTime := by
  induction l generalizing kr with
  | nil => simp [applyOpts]
  | cons o rest ih =>
    cases o with
    | setRules r => simpa [applyOpts, applyOpt] using ih { kr with rules := r }
    | failWith e => simp [applyOpts, applyOpt]

theorem applyOpts_err (l : List Opt) (kr : Receiver) :
    (applyOpts kr l).1 = firstOptErr l := by
  induction l generalizing kr with
  | nil => rfl
  | cons o rest ih =>
    cases o with
    | setRules r => simpa [applyOpts, applyOpt, firstOptErr] using ih _
    | failWith e => simp [applyOpts, applyOpt, firstOptErr]

theorem foldl_startWatch (l : List String) (kr : Receiver) :
    (l.foldl startWatch kr).watches = kr.watches ++ l ∧
    (l.foldl startWatch kr).stopperChanList.length
      = kr.stopperChanList.length + l.length ∧
    (l.foldl startWatch kr).startTime = kr.startTime := by
  induction l generalizing kr with
  | nil => simp
  | cons ns rest ih =>
    have h := ih (startWatch kr ns)
    simp only [List.foldl_cons] at *
    refine ⟨?_, ?_, ?_⟩
    · rw [h.1]; simp [startWatch]
    · rw [h.2.1]; simp [startWatch]; omega
    · rw [h.2.2]; rfl

theorem mapM_closeChan_open (l : List Chan)
    (h : ∀ c ∈ l, c.closed = false) :
    l.mapM closeChan = some (List.replicate l.length { closed := true }) := by
  induction l with
  | nil => rfl
  | cons c rest ih =>
    have hc : c.closed = false := h c (List.mem_cons_self c rest)
    have hrest := ih fun d hd => h d (List.mem_cons_of_mem c hd)
    rw [List.mapM_cons, hrest]
    simp [closeChan, hc, List.replicate_succ]

theorem Start_startTime (kr : Receiver) :
    (Start kr).2.startTime = kr.startTime := by
  have hfr := applyOpts_frame kr.options { kr with cancelSet := true }
  simp only [Start]
  rcases happ : applyOpts { kr with cancelSet := true } kr.options with ⟨oe, kr'⟩
  rw [happ] at hfr
  have hst : kr'.startTime = kr.startTime := hfr.2.2.2.2
  cases oe with
  | some e => simpa using hst
  | none =>
    cases hce : kr'.clientErr with
    | some e => simpa [hce] using hst
    | none =>
      by_cases hns : kr'.namespaces = []
      · simp only [hce, hns, if_pos rfl]
        simpa [startWatch] using hst
      · simp only [hce, if_neg hns]
        simpa [(foldl_startWatch kr'.namespaces kr').2.2] using hst

theorem Shutdown_startTime (kr kr' : Receiver) (e : Option String)
    (h : Shutdown kr = some (kr', e)) : kr'.startTime = kr.startTime := by
  unfold Shutdown at h
  by_cases hc : kr.cancelSet = true
  · rw [if_pos hc] at h
    cases hm : kr.stopperChanList.mapM closeChan with
    | none => rw [hm] at h; exact absurd h (by simp)
    | some cs =>
      rw [hm] at h
      simp only [Option.some.injEq, Prod.mk.injEq] at h
      rw [← h.1]
  · rw [if_neg hc] at h
    simp only [Option.some.injEq, Prod.mk.injEq] at h
    rw [← h.1]

/-- A concrete receiver whose start time is 100, used to evaluate the
theorems on concrete inputs. -/
def kr100 : Receiver := newReceiver 100 [] none []

/-! Claims about the timestamp resolver and the flood filter. -/

/-- C1: getEventTimestamp resolves the event timestamp with priority
EventTime > LastTimestamp > FirstTimestamp — the first field in that order
whose value is not the zero time value — and returns the zero time value
when all three are absent. As a Lean function it is total, deterministic
and side-effect-free. -/
theorem c1_getEventTimestamp_priority (ev : RawEvent) :
    (ev.eventTime ≠ 0 → getEventTimestamp ev = ev.eventTime) ∧
    (ev.eventTime = 0 → ev.lastTimestamp ≠ 0 →
      getEventTimestamp ev = ev.lastTimestamp) ∧
    (ev.eventTime = 0 → ev.lastTimestamp = 0 → ev.firstTimestamp ≠ 0 →
      getEventTimestamp ev = ev.firstTimestamp) ∧
    (ev.eventTime = 0 → ev.lastTimestamp = 0 → ev.firstTimestamp = 0 →
      getEventTimestamp ev = 0) := by
  refine ⟨?_, ?_, ?_, ?_⟩ <;> intros <;> simp [getEventTimestamp, *]

/-- Evaluation of c1_getEventTimestamp_priority on concrete events, one per
priority case. -/
theorem c1_getEventTimestamp_priority_witness :
    getEventTimestamp { eventTime := 7, lastTimestamp := 5, firstTimestamp := 3 } = 7 ∧
    getEventTimestamp { lastTimestamp := 5, firstTimestamp := 3 } = 5 ∧
    getEventTimestamp { firstTimestamp := 3 } = 3 ∧
    getEventTimestamp {} = 0 :=
  ⟨(c1_getEventTimestamp_priority _).1 (by decide),
   (c1_getEventTimestamp_priority _).2.1 rfl (by decide),
   (c1_getEventTimestamp_priority _).2.2.1 rfl rfl (by decide),
   (c1_getEventTimestamp_priority _).2.2.2 rfl rfl rfl⟩

/-- C2: allowEvent accepts an event exactly when its resolved timestamp is
not strictly earlier than the receiver start time; the boundary is
inclusive on the accept side, and a resolved timestamp any positive
duration before the start time is rejected. -/
theorem c2_allowEvent_boundary (kr : Receiver) (ev : RawEvent) (d : Int) :
    (allowEvent kr ev = true ↔ kr.startTime ≤ getEventTimestamp ev) ∧
    (getEventTimestamp ev = kr.startTime → allowEvent kr ev = true) ∧
    (0 < d → getEventTimestamp ev = kr.startTime - d →
      allowEvent kr ev = false) := by
  refine ⟨?_, ?_, ?_⟩
  · simp [allowEvent, timeBefore, not_lt]
  · intro h; simp [allowEvent, timeBefore, h]
  · intro hd h; simp [allowEvent, timeBefore, h]; omega

/-- Evaluation of c2_allowEvent_boundary at start time 100: timestamp 100
accepted, 99 (one unit earlier) rejected, 101 accepted. -/
theorem c2_allowEvent_boundary_witness :
    allowEvent kr100 { eventTime := 100 } = true ∧
    allowEvent kr100 { eventTime := 99 } = false ∧
    allowEvent kr100 { eventTime := 101 } = true :=
  ⟨(c2_allowEvent_boundary kr100 { eventTime := 100 } 1).2.1 (by decide),
   (c2_allowEvent_boundary kr100 { eventTime := 99 } 1).2.2 (by decide) (by decide),
   (c2_allowEvent_boundary kr100 { eventTime := 101 } 1).1.mpr (by decide)⟩

/-- C3: an event whose three timestamp fields are all absent resolves to
the zero time value and is rejected by the flood filter for every receiver
whose start time is a real clock reading, i.e. strictly after the zero
time value — as every time.Now() reading captured by newReceiver is. -/
theorem c3_zero_timestamp_rejected (kr : Receiver) (ev : RawEvent)
    (h1 : ev.eventTime = 0) (h2 : ev.lastTimestamp = 0)
    (h3 : ev.firstTimestamp = 0) (hreal : 0 < kr.startTime) :
    allowEvent kr ev = false := by
  simp [allowEvent, timeBefore, getEventTimestamp, h1, h2, h3, hreal]

/-- Evaluation of c3_zero_timestamp_rejected on a concrete timestampless
event and the start-time-100 receiver. -/
theorem c3_zero_timestamp_rejected_witness :
    allowEvent kr100 {} = false :=
  c3_zero_timestamp_rejected kr100 {} rfl rfl rfl (by decide)

/-! Claims about the event handlers. -/

/-- C8: the handler startWatch registers for added notifications and the
one it registers for updated notifications are equivalent functions: for
any old and new object, both run the same handleEvent
accept/transform/deliver path on the new object. -/
theorem c8_add_update_equiv {L : Type} (kr : Receiver)
    (transform : RawEvent → L) (consume : L → Option String)
    (old obj : RawEvent) :
    updateFunc kr transform consume old obj
      = addFunc kr transform consume obj := rfl

/-- C9: when the consumer rejects the delivered record, handleEvent hands
the error to the instrumentation end-of-operation call and drops the
event: the trace holds exactly one delivery attempt — no retry, no
requeue — and the function returns normally with that trace. -/
theorem c9_consumer_error_recorded_and_dropped {L : Type} (kr : Receiver)
    (transform : RawEvent → L) (consume : L → Option String)
    (ev : RawEvent) (e : String)
    (hallow : allowEvent kr ev = true)
    (herr : consume (transform ev) = some e) :
    handleEvent kr transform consume ev
      = [Action.startLogsOp, Action.consumeLogs (transform ev),
         Action.endLogsOp 1 (some e)] ∧
    (handleEvent kr transform consume ev).countP
        (fun a => match a with
          | Action.consumeLogs _ => true
          | _ => false) = 1 := by
  have h1 : handleEvent kr transform consume ev
      = [Action.startLogsOp, Action.consumeLogs (transform ev),
         Action.endLogsOp 1 (some e)] := by
    simp [handleEvent, hallow, herr]
  refine ⟨h1, ?_⟩
  rw [h1]
  rfl

/-- Evaluation of c9_consumer_error_recorded_and_dropped with a consumer
that always fails, on an event at the start time. -/
theorem c9_consumer_error_recorded_and_dropped_witness :
    handleEvent kr100 (fun _ => ()) (fun _ => some ("boom"))
        { eventTime := 100 }
      = [Action.startLogsOp, Action.consumeLogs (),
         Action.endLogsOp 1 (some ("boom"))] ∧
    (handleEvent kr100 (fun _ => ()) (fun _ => some ("boom"))
        { eventTime := 100 }).countP
        (fun a => match a with
          | Action.consumeLogs _ => true
          | _ => false) = 1 :=
  c9_consumer_error_recorded_and_dropped kr100 (fun _ => ())
    (fun _ => some ("boom")) { eventTime := 100 } ("boom") (by decide) rfl

/-- C10: an event the flood filter rejects produces no observable action
at all: handleEvent performs no transformation delivery, no consumer call,
and no instrumentation start or end — its trace is empty. -/
theorem c10_rejected_event_no_effects {L : Type} (kr : Receiver)
    (transform : RawEvent → L) (consume : L → Option String)
    (ev : RawEvent) (h : allowEvent kr ev = false) :
    handleEvent kr transform consume ev = [] := by
  simp [handleEvent, h]

/-- Evaluation of c10_rejected_event_no_effects on an event one unit older
than the start time. -/
theorem c10_rejected_event_no_effects_witness :
    handleEvent kr100 (fun _ => ()) (fun _ => none) { eventTime := 99 } = [] :=
  c10_rejected_event_no_effects kr100 (fun _ => ()) (fun _ => none)
    { eventTime := 99 } (by decide)

theorem Step_startTime {a b : Receiver} (h : Step a b) :
    b.startTime = a.startTime := by
  induction h with
  | start => exact Start_startTime a
  | shutdown kr' e he => exact Shutdown_startTime a kr' e he

/-! Claims about the pipeline lifecycle. -/

/-- A concrete receiver configured with one namespace, successful client
construction and no options. -/
def krC4 : Receiver := newReceiver 10 ["ns1"] none []

/-- C4 as stated is false: after a successful Start, a second Shutdown
panics. The first Shutdown closes every stopper channel; the channel list
is not cleared, so the second Shutdown closes an already-closed channel —
a Go run-time panic (modelled as none). Concretely: Start succeeds on
krC4, the first Shutdown completes returning a nil error, and the second
Shutdown panics. -/
theorem c4_counterexample :
    (Start krC4).1 = none ∧
    (Shutdown (Start krC4).2).map Prod.snd = some none ∧
    (Shutdown (Start krC4).2).bind (fun p => Shutdown p.1) = none :=
  ⟨rfl, rfl, rfl⟩

/-- C4 amended: Shutdown before Start (or any time the cancel function was
never assigned) is an idempotent no-op returning no error and no panic;
and whenever every stopper channel is still open — in particular on a
single Shutdown after Start, or on an empty handle set — Shutdown
completes without panic and returns no error. Only a repeated Shutdown
after a started pipeline panics. -/
theorem c4_shutdown_amended (kr : Receiver) :
    (kr.cancelSet = false → Shutdown kr = some (kr, none)) ∧
    ((∀ c ∈ kr.stopperChanList, c.closed = false) →
      ∃ kr', Shutdown kr = some (kr', none)) := by
  constructor
  · intro h; simp [Shutdown, h]
  · intro h
    cases hc : kr.cancelSet with
    | false => exact ⟨kr, by simp [Shutdown, hc]⟩
    | true =>
      refine ⟨{ kr with
        stopperChanList :=
          List.replicate kr.stopperChanList.length { closed := true }
        cancelled := true }, ?_⟩
      unfold Shutdown
      rw [if_pos hc, mapM_closeChan_open kr.stopperChanList h]

/-- Evaluation of c4_shutdown_amended: Shutdown on a never-started
receiver is a no-op without error, and the first Shutdown after a
successful Start completes without error. -/
theorem c4_shutdown_amended_witness :
    Shutdown kr100 = some (kr100, none) ∧
    (∃ kr', Shutdown (Start krC4).2 = some (kr', none)) :=
  ⟨(c4_shutdown_amended kr100).1 rfl,
   (c4_shutdown_amended (Start krC4).2).2 (by decide)⟩

/-- C5: on a fresh receiver whose Start succeeds, an empty namespace
configuration yields exactly one watch targeting the all-namespaces
sentinel, and a non-empty configuration yields exactly one watch per
configured namespace in configured order, each watch having appended one
stopper channel to the active set. -/
theorem c5_one_watch_per_namespace (kr : Receiver)
    (h0s : kr.stopperChanList = []) (h0w : kr.watches = [])
    (hok : (Start kr).1 = none) :
    (kr.namespaces = [] →
      (Start kr).2.watches = [NamespaceAll] ∧
      (Start kr).2.stopperChanList.length = 1) ∧
    (kr.namespaces ≠ [] →
      (Start kr).2.watches = kr.namespaces ∧
      (Start kr).2.stopperChanList.length = kr.namespaces.length) := by
  have hfr := applyOpts_frame kr.options { kr with cancelSet := true }
  simp only [Start] at hok ⊢
  rcases happ : applyOpts { kr with cancelSet := true } kr.options with ⟨oe, kr'⟩
  rw [happ] at hfr hok
  have hs' : kr'.stopperChanList = [] := by simpa [h0s] using hfr.1
  have hw' : kr'.watches = [] := by simpa [h0w] using hfr.2.1
  have hns' : kr'.namespaces = kr.namespaces := by simpa using hfr.2.2.1
  cases oe with
  | some e => simp at hok
  | none =>
    cases hce : kr'.clientErr with
    | some e => simp [hce] at hok
    | none =>
      constructor
      · intro hnil
        have hk : kr'.namespaces = [] := by rw [hns', hnil]
        simp [hce, hk, startWatch, hw', hs']
      · intro hne
        have hk : kr'.namespaces ≠ [] := by rw [hns']; exact hne
        simp only [hce, if_neg hk]
        have hf := foldl_startWatch kr'.namespaces kr'
        constructor
        · rw [hf.1, hw', hns']; simp
        · rw [hf.2.1, hs', hns']; simp

/-- Evaluation of c5_one_watch_per_namespace on a fresh receiver with no
namespaces and on one with namespaces a and b. -/
theorem c5_one_watch_per_namespace_witness :
    ((Start (newReceiver 0 [] none [])).2.watches = [NamespaceAll] ∧
     (Start (newReceiver 0 [] none [])).2.stopperChanList.length = 1) ∧
    ((Start (newReceiver 0 ["a", "b"] none [])).2.watches = ["a", "b"] ∧
     (Start (newReceiver 0 ["a", "b"] none [])).2.stopperChanList.length = 2) :=
  ⟨(c5_one_watch_per_namespace (newReceiver 0 [] none []) rfl rfl rfl).1 rfl,
   (c5_one_watch_per_namespace (newReceiver 0 ["a", "b"] none []) rfl rfl rfl).2
     (by decide)⟩

/-- C6: on a fresh receiver, if some initialization option fails then
Start returns that first option error, and if all options succeed but
client construction fails then Start returns the client error; in either
case no watch is established — the watch set and the stopper-channel set
stay empty, so no event is ever processed. -/
theorem c6_start_error_no_watch (kr : Receiver)
    (h0s : kr.stopperChanList = []) (h0w : kr.watches = []) :
    (∀ e, firstOptErr kr.options = some e →
      (Start kr).1 = some e ∧ (Start kr).2.watches = [] ∧
      (Start kr).2.stopperChanList = []) ∧
    (∀ e, firstOptErr kr.options = none → kr.clientErr = some e →
      (Start kr).1 = some e ∧ (Start kr).2.watches = [] ∧
      (Start kr).2.stopperChanList = []) := by
  have hfr := applyOpts_frame kr.options { kr with cancelSet := true }
  have herr := applyOpts_err kr.options { kr with cancelSet := true }
  simp only [Start]
  rcases happ : applyOpts { kr with cancelSet := true } kr.options with ⟨oe, kr'⟩
  rw [happ] at hfr herr
  have hs' : kr'.stopperChanList = [] := by simpa [h0s] using hfr.1
  have hw' : kr'.watches = [] := by simpa [h0w] using hfr.2.1
  have hce' : kr'.clientErr = kr.clientErr := by simpa using hfr.2.2.2.1
  constructor
  · intro e he
    have hoe : oe = some e := by
      rw [show oe = firstOptErr kr.options from herr, he]
    subst hoe
    exact ⟨rfl, hw', hs'⟩
  · intro e hno hce
    have hoe : oe = none := by
      rw [show oe = firstOptErr kr.options from herr, hno]
    subst hoe
    have hk : kr'.clientErr = some e := by rw [hce', hce]
    simp [hk, hw', hs']

/-- Evaluation of c6_start_error_no_watch on a receiver with a failing
option and on one with a failing client construction. -/
theorem c6_start_error_no_watch_witness :
    ((Start (newReceiver 0 ["a"] none [Opt.failWith ("opt failed")])).1
        = some ("opt failed") ∧
     (Start (newReceiver 0 ["a"] none [Opt.failWith ("opt failed")])).2.watches
        = [] ∧
     (Start (newReceiver 0 ["a"] none
        [Opt.failWith ("opt failed")])).2.stopperChanList = []) ∧
    ((Start (newReceiver 0 ["a"] (some ("no client")) [])).1
        = some ("no client") ∧
     (Start (newReceiver 0 ["a"] (some ("no client")) [])).2.watches = [] ∧
     (Start (newReceiver 0 ["a"] (some ("no client")) [])).2.stopperChanList
        = []) :=
  ⟨(c6_start_error_no_watch (newReceiver 0 ["a"] none
      [Opt.failWith ("opt failed")]) rfl rfl).1 ("opt failed") rfl,
   (c6_start_error_no_watch (newReceiver 0 ["a"] (some ("no client")) [])
      rfl rfl).2 ("no client") rfl rfl⟩

/-- C7: the flood-filter start time is the one captured by newReceiver at
construction, before any watch: every receiver state reachable through
lifecycle operations keeps that start time unchanged, and whenever
handleEvent processes an event (nonempty trace) the event passed the
filter against that original time — the time is never re-captured and
never differs per namespace, all watches sharing the one receiver state. -/
theorem c7_single_start_time (t : Int) (ns : List String)
    (ce : Option String) (os : List Opt) (kr : Receiver)
    (h : Reaches (newReceiver t ns ce os) kr) :
    kr.startTime = t ∧
    ∀ {L : Type} (transform : RawEvent → L) (consume : L → Option String)
      (ev : RawEvent), handleEvent kr transform consume ev ≠ [] →
        timeBefore (getEventTimestamp ev) t = false := by
  have h' : Relation.ReflTransGen Step (newReceiver t ns ce os) kr := h
  clear h
  have hst : kr.startTime = t := by
    induction h' with
    | refl => rfl
    | tail hr hstep ih => rw [Step_startTime hstep]; exact ih
  refine ⟨hst, ?_⟩
  intro L transform consume ev hne
  by_cases ha : allowEvent kr ev = true
  · have hb : timeBefore (getEventTimestamp ev) kr.startTime = false := by
      simpa [allowEvent] using ha
    rw [← hst]; exact hb
  · exfalso
    apply hne
    simp only [handleEvent, if_neg ha]

/-- Evaluation of c7_single_start_time on the state reached by one Start
from a receiver constructed at time 5, with a concrete accepted event. -/
theorem c7_single_start_time_witness :
    (Start (newReceiver 5 [] none [])).2.startTime = 5 ∧
    timeBefore (getEventTimestamp { eventTime := 9 }) 5 = false :=
  ⟨(c7_single_start_time 5 [] none [] _
      (Relation.ReflTransGen.single (Step.start _))).1,
   (c7_single_start_time 5 [] none [] _
      (Relation.ReflTransGen.single (Step.start _))).2
     (fun _ => ()) (fun _ => none) { eventTime := 9 } (by decide)⟩

end K8sEvents
